import Mathlib

/-!
Shallow embedding of `cnn_models.py` from CNN-SoilTextureClassification.

The source wires tensorflow.keras layers (Conv1D, MaxPooling1D, Dense,
Flatten, Reshape, Concatenate, plus an external CoordinateChannel1D) into
five named model graphs and dispatches on a model-name string.

Tensors are embedded as their per-sample shape (a list of dimensions,
batch axis omitted, exactly as Keras `Input(shape=...)` writes it)
together with the ordered list of layers that produced them.  Each layer
constructor becomes a function `Tensor → Option Tensor`: `none` is the
framework raising a shape error, `some` is successful graph construction.
Shape arithmetic follows Keras semantics for stride-1 Conv1D
("valid": L - k + 1, requires k ≤ L; "same": L) and MaxPooling1D with
default strides = pool_size and "valid" padding ((L - p) / p + 1,
requires p ≤ L), all in exact natural-number arithmetic.
-/

/-- Activation kinds occurring in the source. -/
inductive Activation where
  | relu
  | tanh
  | softmax
deriving DecidableEq, Repr

/-- Padding modes occurring in the source. -/
inductive Padding where
  | valid
  | same
deriving DecidableEq, Repr

/-- A layer node of a constructed graph, with its hyperparameters. -/
inductive Layer where
  | conv1D (filters kernel : Nat) (act : Activation) (pad : Padding)
  | maxPooling1D (pool : Nat)
  | flatten
  | dense (units : Nat) (act : Activation)
  | reshape (target : List Nat)
  | concatenate
  | coordinateChannel1D
deriving DecidableEq, Repr

/-- A symbolic tensor: its per-sample shape and the layers applied so far,
in application order. -/
structure Tensor where
  shape : List Nat
  history : List Layer
deriving DecidableEq, Repr

/-- `Input(shape=s)`: a fresh symbolic tensor with no layers applied. -/
def Keras.Input (s : List Nat) : Tensor := ⟨s, []⟩

/-- `Conv1D(filters, kernel_size, activation, padding)` applied to a rank-2
tensor `(L, c)`, stride 1.  "valid" padding yields length `L - kernel + 1`
and requires `1 ≤ kernel ≤ L`; "same" padding preserves the length. -/
def Keras.Conv1D (filters kernel : Nat) (act : Activation) (pad : Padding)
    (t : Tensor) : Option Tensor :=
  match t.shape with
  | [L, _c] =>
    if 1 ≤ kernel then
      match pad with
      | Padding.valid =>
        if kernel ≤ L then
          some ⟨[L - kernel + 1, filters],
                t.history ++ [Layer.conv1D filters kernel act pad]⟩
        else none
      | Padding.same =>
        some ⟨[L, filters],
              t.history ++ [Layer.conv1D filters kernel act pad]⟩
    else none
  | _ => none

/-- `MaxPooling1D(pool_size)` with Keras defaults (strides = pool_size,
"valid" padding): `(L, c) ↦ ((L - pool) / pool + 1, c)`, requiring
`1 ≤ pool ≤ L`. -/
def Keras.MaxPooling1D (pool : Nat) (t : Tensor) : Option Tensor :=
  match t.shape with
  | [L, c] =>
    if 1 ≤ pool ∧ pool ≤ L then
      some ⟨[(L - pool) / pool + 1, c], t.history ++ [Layer.maxPooling1D pool]⟩
    else none
  | _ => none

/-- `Flatten()`: collapse the per-sample shape to its product. -/
def Keras.Flatten (t : Tensor) : Option Tensor :=
  some ⟨[t.shape.prod], t.history ++ [Layer.flatten]⟩

/-- `Dense(units, activation)`: replace the last dimension by `units`. -/
def Keras.Dense (units : Nat) (act : Activation) (t : Tensor) : Option Tensor :=
  match t.shape with
  | [] => none
  | _ :: _ =>
    some ⟨t.shape.dropLast ++ [units], t.history ++ [Layer.dense units act]⟩

/-- `Reshape(target)`: succeeds exactly when the element count is
preserved. -/
def Keras.Reshape (target : List Nat) (t : Tensor) : Option Tensor :=
  if t.shape.prod = target.prod then
    some ⟨target, t.history ++ [Layer.reshape target]⟩
  else none

/-- `Concatenate(axis=-1)([a, b])`: all dimensions but the last must agree;
the last dimensions add.  The combined history lists `a`'s layers, then
`b`'s, then the concatenation node. -/
def Keras.Concatenate (a b : Tensor) : Option Tensor :=
  match a.shape.getLast?, b.shape.getLast? with
  | some la, some lb =>
    if a.shape.dropLast = b.shape.dropLast then
      some ⟨a.shape.dropLast ++ [la + lb],
            a.history ++ b.history ++ [Layer.concatenate]⟩
    else none
  | _, _ => none

/-- Modelled from the spec: `CoordinateChannel1D` from the external
`coord` module (not under src/), "an auxiliary input channel encoding
positional information, added before convolution": it appends one
coordinate channel, `(L, c) ↦ (L, c + 1)`. -/
def Keras.CoordinateChannel1D (t : Tensor) : Option Tensor :=
  match t.shape with
  | [L, c] =>
    some ⟨[L, c + 1], t.history ++ [Layer.coordinateChannel1D]⟩
  | _ => none

/-- A constructed model graph: `Model(inputs=inp, outputs=x)`. -/
structure Model where
  inputShape : List Nat
  outputShape : List Nat
  layers : List Layer
deriving DecidableEq, Repr

/-- Wrap the final tensor of a build into a `Model`. -/
def Model.ofOutput (inp : Tensor) (x : Tensor) : Model :=
  ⟨inp.shape, x.shape, x.history⟩

/-- `HuEtAl()`: 1D-CNN by Wei Hu et al 2014.  `kernel_size = 256 // 9`;
`pool_size = int((256 - kernel_size + 1) / 35)` (a float division whose
truncation coincides with natural floor division here, both operands
being positive and exactly representable). -/
def HuEtAl : Option Model := do
  let seq_length := 256
  let kernel_size := seq_length / 9
  let pool_size := (seq_length - kernel_size + 1) / 35
  let inp := Keras.Input [seq_length, 1]
  let x ← Keras.Conv1D 20 kernel_size Activation.tanh Padding.valid inp
  let x ← Keras.MaxPooling1D pool_size x
  let x ← Keras.Flatten x
  let x ← Keras.Dense 100 Activation.tanh x
  let x ← Keras.Dense 4 Activation.softmax x
  return Model.ofOutput inp x

/-- `LiuEtAl()`: 1D-CNN by Lanfa Liu et al 2018. -/
def LiuEtAl : Option Model := do
  let seq_length := 256
  let kernel_size := 3
  let inp := Keras.Input [seq_length, 1]
  let x ← Keras.Conv1D 32 kernel_size Activation.relu Padding.valid inp
  let x ← Keras.MaxPooling1D 2 x
  let x ← Keras.Conv1D 32 kernel_size Activation.relu Padding.valid x
  let x ← Keras.MaxPooling1D 2 x
  let x ← Keras.Conv1D 64 kernel_size Activation.relu Padding.valid x
  let x ← Keras.MaxPooling1D 2 x
  let x ← Keras.Conv1D 64 kernel_size Activation.relu Padding.valid x
  let x ← Keras.MaxPooling1D 2 x
  let x ← Keras.Flatten x
  let x ← Keras.Dense 4 Activation.softmax x
  return Model.ofOutput inp x

/-- `LucasCNN()`. -/
def LucasCNN : Option Model := do
  let seq_length := 256
  let kernel_size := 3
  let activation := Activation.relu
  let padding := Padding.valid
  let inp := Keras.Input [seq_length, 1]
  let x ← Keras.Conv1D 32 kernel_size activation padding inp
  let x ← Keras.MaxPooling1D 2 x
  let x ← Keras.Conv1D 32 kernel_size activation padding x
  let x ← Keras.MaxPooling1D 2 x
  let x ← Keras.Conv1D 64 kernel_size activation padding x
  let x ← Keras.MaxPooling1D 2 x
  let x ← Keras.Conv1D 64 kernel_size activation padding x
  let x ← Keras.MaxPooling1D 2 x
  let x ← Keras.Flatten x
  let x ← Keras.Dense 120 activation x
  let x ← Keras.Dense 160 activation x
  let x ← Keras.Dense 4 Activation.softmax x
  return Model.ofOutput inp x

/-- `LucasResNet()`: four "same"-padded convolutions with pooling, then the
raw input reshaped to 16×16 is concatenated with the convolutional
output. -/
def LucasResNet : Option Model := do
  let seq_length := 256
  let kernel_size := 3
  let activation := Activation.relu
  let padding := Padding.same
  let inp := Keras.Input [seq_length, 1]
  let x ← Keras.Conv1D 32 kernel_size activation padding inp
  let x ← Keras.MaxPooling1D 2 x
  let x ← Keras.Conv1D 32 kernel_size activation padding x
  let x ← Keras.MaxPooling1D 2 x
  let x ← Keras.Conv1D 64 kernel_size activation padding x
  let x ← Keras.MaxPooling1D 2 x
  let x ← Keras.Conv1D 64 kernel_size activation padding x
  let x ← Keras.MaxPooling1D 2 x
  let inp_res ← Keras.Reshape [16, 16] inp
  let x ← Keras.Concatenate x inp_res
  let x ← Keras.Flatten x
  let x ← Keras.Dense 150 activation x
  let x ← Keras.Dense 100 activation x
  let x ← Keras.Dense 4 Activation.softmax x
  return Model.ofOutput inp x

/-- `LucasCoordConv()`: the coordinate channel is prepended to the input
before the first convolution; the coordinate layer itself is modelled from
the spec (see `CoordinateChannel1D`). -/
def LucasCoordConv : Option Model := do
  let seq_length := 256
  let kernel_size := 3
  let activation := Activation.relu
  let padding := Padding.valid
  let inp := Keras.Input [seq_length, 1]
  let x ← Keras.CoordinateChannel1D inp
  let x ← Keras.Conv1D 32 kernel_size activation padding x
  let x ← Keras.MaxPooling1D 2 x
  let x ← Keras.Conv1D 64 kernel_size activation padding x
  let x ← Keras.MaxPooling1D 2 x
  let x ← Keras.Conv1D 64 kernel_size activation padding x
  let x ← Keras.MaxPooling1D 2 x
  let x ← Keras.Conv1D 128 kernel_size activation padding x
  let x ← Keras.MaxPooling1D 2 x
  let x ← Keras.Flatten x
  let x ← Keras.Dense 256 activation x
  let x ← Keras.Dense 128 activation x
  let x ← Keras.Dense 4 Activation.softmax x
  return Model.ofOutput inp x

/-- `getKerasModel(model_name)`: dispatch by exact string comparison.  The
second component records the messages printed; the unrecognised branch
prints `"Error: Model {0} not implemented."` formatted with the name and
returns `None`. -/
def getKerasModel (model_name : String) : Option Model × List String :=
  if model_name = "LucasCNN" then (LucasCNN, [])
  else if model_name = "HuEtAl" then (HuEtAl, [])
  else if model_name = "LiuEtAl" then (LiuEtAl, [])
  else if model_name = "LucasResNet" then (LucasResNet, [])
  else if model_name = "LucasCoordConv" then (LucasCoordConv, [])
  else (none, ["Error: Model " ++ model_name ++ " not implemented."])

/-- The five recognised model names, in dispatch order. -/
def recognizedNames : List String :=
  ["LucasCNN", "HuEtAl", "LiuEtAl", "LucasResNet", "LucasCoordConv"]

/-- The convolution layers of a model, in order: (filters, kernel,
activation, padding). -/
def Model.convs (m : Model) : List (Nat × Nat × Activation × Padding) :=
  m.layers.filterMap fun l =>
    match l with
    | Layer.conv1D f k a p => some (f, k, a, p)
    | _ => none

/-- The pooling sizes of a model, in order. -/
def Model.pools (m : Model) : List Nat :=
  m.layers.filterMap fun l =>
    match l with
    | Layer.maxPooling1D p => some p
    | _ => none

/-- The dense layers of a model, in order: (units, activation). -/
def Model.denses (m : Model) : List (Nat × Activation) :=
  m.layers.filterMap fun l =>
    match l with
    | Layer.dense u a => some (u, a)
    | _ => none

/-- Apply one single-input layer node to a tensor (the concatenation node
takes two inputs and is not applicable here). -/
def applyLayer1 (l : Layer) (t : Tensor) : Option Tensor :=
  match l with
  | Layer.conv1D f k a p => Keras.Conv1D f k a p t
  | Layer.maxPooling1D p => Keras.MaxPooling1D p t
  | Layer.flatten => Keras.Flatten t
  | Layer.dense u a => Keras.Dense u a t
  | Layer.reshape s => Keras.Reshape s t
  | Layer.coordinateChannel1D => Keras.CoordinateChannel1D t
  | Layer.concatenate => none

/-- Apply a chain of single-input layers in order. -/
def applyLayers (ls : List Layer) (t : Tensor) : Option Tensor :=
  ls.foldlM (fun acc l => applyLayer1 l acc) t

/-- The activations of a model's convolution layers, in order. -/
def Model.convActs (m : Model) : List Activation :=
  m.layers.filterMap fun l =>
    match l with
    | Layer.conv1D _ _ a _ => some a
    | _ => none

/-- The activations of a model's dense layers, in order. -/
def Model.denseActs (m : Model) : List Activation :=
  m.layers.filterMap fun l =>
    match l with
    | Layer.dense _ a => some a
    | _ => none

/-- C1: for each of the five recognised model names, `getKerasModel`
returns a graph with input shape (256, 1) and output shape (4,), the
output produced by a 4-unit softmax dense layer. -/
theorem getKerasModel_shapes :
    ∀ name ∈ recognizedNames,
      (getKerasModel name).1.map Model.inputShape = some [256, 1] ∧
      (getKerasModel name).1.map Model.outputShape = some [4] ∧
      (getKerasModel name).1.map (fun m => m.layers.getLast?) =
        some (some (Layer.dense 4 Activation.softmax)) := by
  decide

/-- Witness for C1 at the concrete name "LucasCNN". -/
theorem getKerasModel_shapes_witness :
    "LucasCNN" ∈ recognizedNames ∧
      (getKerasModel "LucasCNN").1.map Model.inputShape = some [256, 1] :=
  ⟨by decide, (getKerasModel_shapes "LucasCNN" (by decide)).1⟩

/-- C2: `getKerasModel` dispatches by exact name to the builder of the
same name. -/
theorem getKerasModel_dispatch :
    getKerasModel "LucasCNN" = (LucasCNN, []) ∧
    getKerasModel "HuEtAl" = (HuEtAl, []) ∧
    getKerasModel "LiuEtAl" = (LiuEtAl, []) ∧
    getKerasModel "LucasResNet" = (LucasResNet, []) ∧
    getKerasModel "LucasCoordConv" = (LucasCoordConv, []) :=
  ⟨rfl, rfl, rfl, rfl, rfl⟩

/-- C3: every string outside the five recognised names makes
`getKerasModel` print the error message and return `None`; no other
behaviour (in particular no fault) occurs on that path. -/
theorem getKerasModel_unknown (s : String) (h : s ∉ recognizedNames) :
    getKerasModel s =
      (none, ["Error: Model " ++ s ++ " not implemented."]) := by
  simp only [recognizedNames, List.mem_cons, List.not_mem_nil, or_false,
    not_or] at h
  obtain ⟨h1, h2, h3, h4, h5⟩ := h
  simp [getKerasModel, h1, h2, h3, h4, h5]

/-- Witness for C3 at the concrete unrecognised name "foo". -/
theorem getKerasModel_unknown_witness :
    "foo" ∉ recognizedNames ∧
      getKerasModel "foo" =
        (none, ["Error: Model " ++ "foo" ++ " not implemented."]) :=
  ⟨by decide, getKerasModel_unknown "foo" (by decide)⟩

/-- C4: in `HuEtAl`, the convolution kernel size is `256 / 9 = 28` and the
pooling size is `(256 - 28 + 1) / 35 = 6`, in exact integer arithmetic;
the built graph carries exactly these hyperparameters. -/
theorem huEtAl_kernel_pool :
    256 / 9 = 28 ∧
    (256 - 256 / 9 + 1) / 35 = 6 ∧
    HuEtAl.map Model.convs =
      some [(20, 256 / 9, Activation.tanh, Padding.valid)] ∧
    HuEtAl.map Model.pools = some [(256 - 256 / 9 + 1) / 35] := by
  decide

/-- C5: the layer composition of each of the five architectures matches
the §4.2 table: convolutions (filters, kernel, activation, padding),
pooling sizes, and dense head, in order. -/
theorem architectures_match_table :
    HuEtAl.map Model.convs =
      some [(20, 28, Activation.tanh, Padding.valid)] ∧
    HuEtAl.map Model.pools = some [6] ∧
    HuEtAl.map Model.denses =
      some [(100, Activation.tanh), (4, Activation.softmax)] ∧
    LiuEtAl.map Model.convs =
      some [(32, 3, Activation.relu, Padding.valid),
            (32, 3, Activation.relu, Padding.valid),
            (64, 3, Activation.relu, Padding.valid),
            (64, 3, Activation.relu, Padding.valid)] ∧
    LiuEtAl.map Model.pools = some [2, 2, 2, 2] ∧
    LiuEtAl.map Model.denses = some [(4, Activation.softmax)] ∧
    LucasCNN.map Model.convs =
      some [(32, 3, Activation.relu, Padding.valid),
            (32, 3, Activation.relu, Padding.valid),
            (64, 3, Activation.relu, Padding.valid),
            (64, 3, Activation.relu, Padding.valid)] ∧
    LucasCNN.map Model.denses =
      some [(120, Activation.relu), (160, Activation.relu),
            (4, Activation.softmax)] ∧
    LucasResNet.map Model.convs =
      some [(32, 3, Activation.relu, Padding.same),
            (32, 3, Activation.relu, Padding.same),
            (64, 3, Activation.relu, Padding.same),
            (64, 3, Activation.relu, Padding.same)] ∧
    LucasResNet.map Model.denses =
      some [(150, Activation.relu), (100, Activation.relu),
            (4, Activation.softmax)] ∧
    LucasCoordConv.map Model.convs =
      some [(32, 3, Activation.relu, Padding.valid),
            (64, 3, Activation.relu, Padding.valid),
            (64, 3, Activation.relu, Padding.valid),
            (128, 3, Activation.relu, Padding.valid)] ∧
    LucasCoordConv.map Model.denses =
      some [(256, Activation.relu), (128, Activation.relu),
            (4, Activation.softmax)] ∧
    LucasCoordConv.map (fun m => m.layers.head?) =
      some (some Layer.coordinateChannel1D) := by
  refine ⟨?_, ?_, ?_, ?_, ?_, ?_, ?_, ?_, ?_, ?_, ?_, ?_, ?_⟩ <;> decide

/-- C6: in `LucasResNet` the raw (256, 1) input is reshaped to 16×16; the
reshape is exact (element count 256 = 16 × 16 is preserved, so no data is
lost) and the reshaped input feeds the concatenation node. -/
theorem lucasResNet_reshape_exact :
    (Keras.Reshape [16, 16] (Keras.Input [256, 1])).map Tensor.shape =
      some [16, 16] ∧
    ([256, 1] : List Nat).prod = ([16, 16] : List Nat).prod ∧
    256 = 16 * 16 ∧
    LucasResNet.map (fun m => (m.layers.take 10).drop 8) =
      some [Layer.reshape [16, 16], Layer.concatenate] := by
  decide

/-- C9: the convolutional stack of `LucasResNet` (its first eight layer
nodes) maps the (256, 1) input to shape (16, 64) — the time dimension is
256 / 2^4 = 16, matching the reshaped (16, 16) input — so the
last-axis concatenation is well-formed and yields shape (16, 80). -/
theorem lucasResNet_concat_well_formed :
    (LucasResNet.bind fun m =>
        (applyLayers (m.layers.take 8) (Keras.Input [256, 1])).map
          Tensor.shape) =
      some [16, 64] ∧
    256 / 2 ^ 4 = 16 ∧
    (Keras.Concatenate ⟨[16, 64], []⟩ ⟨[16, 16], []⟩).map Tensor.shape =
      some [16, 80] ∧
    64 + 16 = 80 := by
  decide

/-- C10: `HuEtAl` uses tanh for its convolution and its 100-unit dense
layer; every convolution and dense hidden layer of the other four models
uses relu; all five end with a softmax dense layer. -/
theorem model_activations :
    HuEtAl.map Model.convActs = some [Activation.tanh] ∧
    HuEtAl.map Model.denseActs =
      some [Activation.tanh, Activation.softmax] ∧
    LiuEtAl.map Model.convActs =
      some [Activation.relu, Activation.relu, Activation.relu,
            Activation.relu] ∧
    LiuEtAl.map Model.denseActs = some [Activation.softmax] ∧
    LucasCNN.map Model.convActs =
      some [Activation.relu, Activation.relu, Activation.relu,
            Activation.relu] ∧
    LucasCNN.map Model.denseActs =
      some [Activation.relu, Activation.relu, Activation.softmax] ∧
    LucasResNet.map Model.convActs =
      some [Activation.relu, Activation.relu, Activation.relu,
            Activation.relu] ∧
    LucasResNet.map Model.denseActs =
      some [Activation.relu, Activation.relu, Activation.softmax] ∧
    LucasCoordConv.map Model.convActs =
      some [Activation.relu, Activation.relu, Activation.relu,
            Activation.relu] ∧
    LucasCoordConv.map Model.denseActs =
      some [Activation.relu, Activation.relu, Activation.softmax] := by
  decide

/-- C7: the unrecognised model name is the single error condition of the
module: `getKerasModel` returns the empty result exactly on strings
outside the five recognised names, and prints nothing exactly on the
recognised names — so every recognised name builds its graph without any
other error path being taken. -/
theorem single_error_condition (s : String) :
    ((getKerasModel s).1 = none ↔ s ∉ recognizedNames) ∧
    ((getKerasModel s).2 = [] ↔ s ∈ recognizedNames) := by
  unfold getKerasModel
  split_ifs with h1 h2 h3 h4 h5 <;> simp_all [recognizedNames] <;> decide

/-- C8: name matching is exact and case-sensitive: "lucascnn", "HUETAL"
and "LucasCNN " (trailing space) all yield `None`, and in general any
string outside the five exact names yields `None` rather than a model. -/
theorem dispatch_case_sensitive :
    (getKerasModel "lucascnn").1 = none ∧
    (getKerasModel "HUETAL").1 = none ∧
    (getKerasModel "LucasCNN ").1 = none ∧
    ∀ s : String, s ∈ recognizedNames ∨ (getKerasModel s).1 = none := by
  refine ⟨by decide, by decide, by decide, ?_⟩
  intro s
  unfold getKerasModel
  split_ifs with h1 h2 h3 h4 h5 <;> simp_all [recognizedNames]
